import Mathlib

/-!
Verification development for the mimi_tiktok_backend repository.

The Python source is shallowly embedded: each module's functions become Lean
definitions over explicit data.  Dynamic JSON-like payloads are modelled by an
inductive `Json` type; Python expressions that can raise (attribute access on a
non-dict, `KeyError`, iteration of a non-iterable) are modelled with
`Except Unit`; a surrounding `try/except` collapses `Except.error` to the
handler's result.  Randomness (`random.choice`, `random.randint`) is modelled
by threading an arbitrary draw function `Nat → Nat`; the draw at stream
position `k` for bounds `[a, b]` is `a + r k % (b - a + 1)`, so every drawn
value lies in `[a, b]` and `random.choice` always returns a list element.
MongoDB documents are modelled as a list of structured records holding exactly
the fields the repository reads or writes; the server-side collection contents
are carried in the `MongoDB` state next to the `client`/`db`/`reels` handles.
-/

/-- Dynamic JSON-like value, the shape of every raw payload the Python code
manipulates (`dict`, `list`, `str`, numbers, booleans, `None`). -/
inductive Json where
  | null : Json
  | bool (b : Bool) : Json
  | num (n : Int) : Json
  | str (s : String) : Json
  | arr (elems : List Json) : Json
  | obj (fields : List (String × Json)) : Json

/-- First value bound to a key in a Python dict literal / lookup order. -/
def dictGet : List (String × Json) → String → Option Json
  | [], _ => none
  | (k, v) :: rest, key => if k = key then some v else dictGet rest key

/-- Python truthiness (`bool(x)`) on JSON-like values. -/
def jsonTruthy : Json → Bool
  | Json.null => false
  | Json.bool b => b
  | Json.num n => n != 0
  | Json.str s => s != ""
  | Json.arr elems => !elems.isEmpty
  | Json.obj fields => !fields.isEmpty

/-- Python `x.get(k)`: returns the stored value (possibly `None`) or `None`
when the key is absent; raises `AttributeError` when `x` is not a dict. -/
def pyDictGet (j : Json) (k : String) : Except Unit (Option Json) :=
  match j with
  | Json.obj fields => Except.ok (dictGet fields k)
  | _ => Except.error ()

/-- Python `x.get(k, dflt)`. -/
def pyDictGetD (j : Json) (k : String) (dflt : Json) : Except Unit Json := do
  let o ← pyDictGet j k
  pure (o.getD dflt)

/-- Python `a or b` on JSON-like values. -/
def pyOr (a b : Json) : Json :=
  if jsonTruthy a then a else b

/-- Python `for x in j`: lists iterate their elements, strings their
characters, dicts their keys; other values raise `TypeError`. -/
def pyIter : Json → Except Unit (List Json)
  | Json.arr elems => Except.ok elems
  | Json.str s => Except.ok (s.toList.map (fun c => Json.str (String.singleton c)))
  | Json.obj fields => Except.ok (fields.map (fun kv => Json.str kv.1))
  | _ => Except.error ()

/-- Python `random.randint(a, b)` driven by an arbitrary draw `r`. -/
def pyRandint (a b r : Nat) : Nat :=
  a + r % (b - a + 1)

/-- Python `random.choice(l)` driven by an arbitrary draw `r` (the source
only ever calls it on fixed non-empty lists). -/
def pyChoice (l : List String) (r : Nat) : String :=
  (l.getD (r % l.length) "")

/-- Python `str.capitalize()`: first character upper-cased, rest lower-cased. -/
def pyCapitalize (s : String) : String :=
  match s.toList with
  | [] => ""
  | c :: rest => String.mk (c.toUpper :: rest.map Char.toLower)

/-- Python `s.startswith(pre)`. -/
def pyStartsWith (s pre : String) : Bool :=
  pre.toList.isPrefixOf s.toList

/-- Python `s.lower()` (the source only lower-cases ASCII identifiers and
hashtags). -/
def pyToLower (s : String) : String :=
  String.mk (s.toList.map Char.toLower)

/-- Substring occurrence at any position (helper for Python `in`). -/
def containsSub (needle : List Char) : List Char → Bool
  | [] => List.isPrefixOf needle []
  | c :: t => List.isPrefixOf needle (c :: t) || containsSub needle t

/-- Python `needle in hay` on strings (substring test). -/
def strContains (hay needle : String) : Bool :=
  containsSub needle.toList hay.toList

/-- Python `x.lower()`: succeeds on strings, raises `AttributeError`
otherwise. -/
def pyLowerStr (j : Json) : Except Unit String :=
  match j with
  | Json.str s => Except.ok (pyToLower s)
  | _ => Except.error ()

/-- Canonical video record shape shared by `tiktok_service.py`,
`tiktok_scraper.py` and `tiktok_api_client.py` (the Python dict all three
builders produce).  Fields keep the dynamic `Json` type since the Python
builders copy raw payload values through unchanged; `isMock` is always set to
a boolean literal by every builder. -/
structure Video where
  id : Json
  videoUrl : Json
  thumbnailUrl : Json
  description : Json
  authorUsername : Json
  authorNickname : Json
  authorAvatar : Json
  statsLikes : Json
  statsComments : Json
  statsShares : Json
  statsViews : Json
  duration : Json
  hashtags : List Json
  isMock : Bool
  createdAt : Json

/-- Fixed allow-list of sample URLs in `TikTokService._generate_fallback_videos`
and `TikTokService._get_playable_url`. -/
def serviceReliableVideos : List String :=
  ["https://commondatastorage.googleapis.com/gtv-videos-bucket/sample/BigBuckBunny.mp4",
   "https://commondatastorage.googleapis.com/gtv-videos-bucket/sample/ElephantsDream.mp4",
   "https://commondatastorage.googleapis.com/gtv-videos-bucket/sample/ForBiggerBlazes.mp4"]

/-- One loop iteration of `TikTokService._generate_fallback_videos`:
the record appended for index `i`, with `r` the random draws it consumes. -/
def fallbackVideo (context : String) (i : Nat) (r : Nat → Nat) : Video :=
  { id := Json.str ("fallback_" ++ context ++ "_" ++ toString i),
    videoUrl := Json.str (pyChoice serviceReliableVideos (r 0)),
    thumbnailUrl := Json.str ("https://picsum.photos/400/700?random=" ++ toString i),
    description := Json.str ("Awesome " ++ context ++ " video #" ++ toString (i + 1) ++ " 🎥"),
    authorUsername := Json.str ("user" ++ toString (pyRandint 1 100 (r 1))),
    authorNickname := Json.str ("User " ++ toString (pyRandint 1 100 (r 2))),
    authorAvatar := Json.str ("https://i.pravatar.cc/150?img=" ++ toString (pyRandint 1 70 (r 3))),
    statsLikes := Json.num (pyRandint 1000 100000 (r 4)),
    statsComments := Json.num (pyRandint 50 5000 (r 5)),
    statsShares := Json.num (pyRandint 20 2000 (r 6)),
    statsViews := Json.num (pyRandint 10000 1000000 (r 7)),
    duration := Json.num (pyRandint 15 60 (r 8)),
    hashtags := [Json.str ("#" ++ context), Json.str "#viral", Json.str "#fyp"],
    isMock := true,
    createdAt := Json.str ("2024-01-" ++ toString (pyRandint 10 30 (r 9)) ++ "T00:00:00Z") }

/-- `TikTokService._generate_fallback_videos(count, context)`: `for i in
range(count)` append one fallback record.  `rand i` supplies the random draws
consumed while building record `i`. -/
def generateFallbackVideos (count : Nat) (context : String) (rand : Nat → Nat → Nat) : List Video :=
  (List.range count).map (fun i => fallbackVideo context i (rand i))

/-- Body of the per-video `try` block in `TikTokService._process_api_videos`:
field extraction from the raw payload; any raised error (attribute access on a
non-dict) is reported as `Except.error`.  `videoUrl` comes from
`TikTokService._get_playable_url`, which ignores the payload and picks a
random allow-list URL. -/
def serviceBuildVideo (video : Json) (r : Nat → Nat) : Except Unit Video := do
  let idv ← pyDictGetD video "id"
    (Json.str ("video_" ++ toString (pyRandint 10000 99999 (r 0))))
  let url := pyChoice serviceReliableVideos (r 1)
  let vids ← pyDictGetD video "video" (Json.obj [])
  let cover ← pyDictGetD vids "cover" (Json.str "https://picsum.photos/400/700")
  let desc ← pyDictGetD video "desc" (Json.str "TikTok Video")
  let auth ← pyDictGetD video "author" (Json.obj [])
  let uname ← pyDictGetD auth "uniqueId" (Json.str "tiktok_user")
  let nick ← pyDictGetD auth "nickname" (Json.str "TikTok User")
  let avatar ← pyDictGetD auth "avatarThumb" (Json.str "https://i.pravatar.cc/150")
  let stats ← pyDictGetD video "stats" (Json.obj [])
  let likes ← pyDictGetD stats "diggCount" (Json.num (pyRandint 1000 100000 (r 2)))
  let comments ← pyDictGetD stats "commentCount" (Json.num (pyRandint 50 5000 (r 3)))
  let shares ← pyDictGetD stats "shareCount" (Json.num (pyRandint 20 2000 (r 4)))
  let views ← pyDictGetD stats "playCount" (Json.num (pyRandint 10000 1000000 (r 5)))
  let dur ← pyDictGetD vids "duration" (Json.num (pyRandint 15 60 (r 6)))
  pure { id := idv, videoUrl := Json.str url, thumbnailUrl := cover, description := desc,
         authorUsername := uname, authorNickname := nick, authorAvatar := avatar,
         statsLikes := likes, statsComments := comments, statsShares := shares,
         statsViews := views, duration := dur,
         hashtags := [Json.str "#trending", Json.str "#viral", Json.str "#fyp"],
         isMock := false, createdAt := Json.str "2024-01-01T00:00:00Z" }

/-- One video of `TikTokService._process_api_videos`: the `except` clause
turns a raised error into `continue`, i.e. the record is dropped. -/
def serviceProcessVideo (video : Json) (r : Nat → Nat) : Option Video :=
  match serviceBuildVideo video r with
  | Except.ok v => some v
  | Except.error _ => none

/-- `TikTokService._process_api_videos`: keep the successfully processed
records in order. -/
def processApiVideos (videoList : List Json) (rand : Nat → Nat → Nat) : List Video :=
  videoList.enum.filterMap (fun p => serviceProcessVideo p.2 (rand p.1))

/-- Python truthiness of `data.get('itemList')`, totalised: `false` also when
`data` is not a dict (in the source that access raises and the surrounding
`try` produces the same fallback result). -/
def itemListTruthy (data : Json) : Bool :=
  match pyDictGet data "itemList" with
  | Except.ok o => jsonTruthy (o.getD Json.null)
  | Except.error _ => false

/-- `TikTokService._get_api_trending_videos(count)`.  The outbound HTTP call
is an input: `Except.error` is a network error / raised exception,
`Except.ok (status, body)` a completed response with its decoded JSON body.
Every failure path returns `self._generate_fallback_videos(count, "trending")`. -/
def getApiTrendingVideos (count : Nat) (response : Except Unit (Nat × Json))
    (rand : Nat → Nat → Nat) : List Video :=
  match response with
  | Except.error _ => generateFallbackVideos count "trending" rand
  | Except.ok (status, data) =>
    if status = 200 then
      match pyDictGet data "itemList" with
      | Except.error _ => generateFallbackVideos count "trending" rand
      | Except.ok o =>
        if jsonTruthy (o.getD Json.null) then
          match pyIter (o.getD Json.null) with
          | Except.error _ => generateFallbackVideos count "trending" rand
          | Except.ok items => (processApiVideos items rand).take count
        else generateFallbackVideos count "trending" rand
    else generateFallbackVideos count "trending" rand

/-- `TikTokService.get_trending_videos(count)`: the `try` body is
`_get_api_trending_videos`, which handles all its failures internally, so the
`except` fallback is unreachable. -/
def getTrendingVideos (count : Nat) (response : Except Unit (Nat × Json))
    (rand : Nat → Nat → Nat) : List Video :=
  getApiTrendingVideos count response rand

/-- `TikTokService.get_user_videos(username, count)`: fetch trending videos
and overwrite each record's author username/nickname in place.  The records
produced by `_get_api_trending_videos` always carry an author dict, so the
loop cannot raise and the `except` fallback is unreachable. -/
def getUserVideos (username : String) (count : Nat) (response : Except Unit (Nat × Json))
    (rand : Nat → Nat → Nat) : List Video :=
  (getApiTrendingVideos count response rand).map
    (fun v => { v with authorUsername := Json.str username,
                       authorNickname := Json.str (pyCapitalize username) })

lemma pyChoice_mem (l : List String) (r : Nat) (h : l ≠ []) : pyChoice l r ∈ l := by
  unfold pyChoice
  have hlen : 0 < l.length := List.length_pos.mpr h
  have hlt : r % l.length < l.length := Nat.mod_lt _ hlen
  rw [List.getD_eq_getElem?_getD, List.getElem?_eq_getElem hlt]
  exact List.getElem_mem hlt

/-- C4: for every count ≥ 0 and context label, the mock generator returns
exactly `count` records, each with `isMock = true` and a `videoUrl` drawn from
the fixed allow-list; `count = 0` yields the empty sequence. -/
theorem mock_generator_shape (count : Nat) (context : String) (rand : Nat → Nat → Nat) :
    (generateFallbackVideos count context rand).length = count
    ∧ generateFallbackVideos 0 context rand = []
    ∧ ∀ v, v ∈ generateFallbackVideos count context rand →
        v.isMock = true ∧ ∃ s, v.videoUrl = Json.str s ∧ s ∈ serviceReliableVideos := by
  refine ⟨by simp [generateFallbackVideos], rfl, ?_⟩
  intro v hv
  simp only [generateFallbackVideos, List.mem_map, List.mem_range] at hv
  obtain ⟨i, _, rfl⟩ := hv
  refine ⟨rfl, pyChoice serviceReliableVideos (rand i 0), rfl, ?_⟩
  exact pyChoice_mem _ _ (by simp [serviceReliableVideos])

/-- C4 witness: the theorem applied at `count = 1`, context `"trending"`,
constant draws. -/
theorem mock_generator_shape_witness :
    (generateFallbackVideos 1 "trending" (fun _ _ => 0)).length = 1
    ∧ ∃ v ∈ generateFallbackVideos 1 "trending" (fun _ _ => 0),
        v.isMock = true ∧ ∃ s, v.videoUrl = Json.str s ∧ s ∈ serviceReliableVideos := by
  refine ⟨(mock_generator_shape 1 "trending" (fun _ _ => 0)).1, ?_⟩
  have hne : generateFallbackVideos 1 "trending" (fun _ _ => 0) ≠ [] := by
    have hl : (generateFallbackVideos 1 "trending" (fun _ _ => 0)).length = 1 := rfl
    intro h
    rw [h] at hl
    simp at hl
  obtain ⟨v, hv⟩ := List.exists_mem_of_ne_nil _ hne
  exact ⟨v, hv, (mock_generator_shape 1 "trending" (fun _ _ => 0)).2.2 v hv⟩

/-- Per-tag step of `TikTokAPIClient._process_video`'s hashtag extraction
(`tag.get('title', '')`): raises when a tag is not a dict. -/
def clientTitles : List Json → Except Unit (List Json)
  | [] => Except.ok []
  | t :: rest => do
    let v ← pyDictGetD t "title" (Json.str "")
    let vs ← clientTitles rest
    pure (v :: vs)

/-- Record construction inside `TikTokAPIClient._process_video`, applied to
the decoded `video.info()` payload. -/
def clientBuildVideo (info : Json) : Except Unit Video := do
  let idv ← pyDictGetD info "id" (Json.str "")
  let vids ← pyDictGetD info "video" (Json.obj [])
  let url ← pyDictGetD vids "downloadAddr" (Json.str "")
  let cover ← pyDictGetD vids "cover" (Json.str "")
  let desc ← pyDictGetD info "desc" (Json.str "")
  let auth ← pyDictGetD info "author" (Json.obj [])
  let uname ← pyDictGetD auth "uniqueId" (Json.str "")
  let nick ← pyDictGetD auth "nickname" (Json.str "")
  let avatar ← pyDictGetD auth "avatarThumb" (Json.str "")
  let stats ← pyDictGetD info "stats" (Json.obj [])
  let likes ← pyDictGetD stats "diggCount" (Json.num 0)
  let comments ← pyDictGetD stats "commentCount" (Json.num 0)
  let shares ← pyDictGetD stats "shareCount" (Json.num 0)
  let views ← pyDictGetD stats "playCount" (Json.num 0)
  let dur ← pyDictGetD vids "duration" (Json.num 0)
  let challenges ← pyDictGetD info "challenges" (Json.arr [])
  let items ← pyIter challenges
  let titles ← clientTitles items
  let created ← pyDictGetD info "createTime" (Json.str "")
  pure { id := idv, videoUrl := url, thumbnailUrl := cover, description := desc,
         authorUsername := uname, authorNickname := nick, authorAvatar := avatar,
         statsLikes := likes, statsComments := comments, statsShares := shares,
         statsViews := views, duration := dur, hashtags := titles,
         isMock := false, createdAt := created }

/-- `TikTokAPIClient._process_video(video)`: `video.info()` may itself raise
(`Except.error` input); the surrounding `try` turns any raised error into
`None`. -/
def clientProcessVideo (infoRes : Except Unit Json) : Option Video :=
  match infoRes with
  | Except.error _ => none
  | Except.ok info =>
    match clientBuildVideo info with
    | Except.ok v => some v
    | Except.error _ => none

/-- The shared `async for` loop body of the three `TikTokAPIClient` fetchers:
append each successfully processed video, breaking once `count` is reached. -/
def clientLoop (count : Nat) (acc : List Video) : List (Except Unit Json) → List Video
  | [] => acc
  | x :: rest =>
    let acc2 := match clientProcessVideo x with
      | some v => acc ++ [v]
      | none => acc
    if count ≤ acc2.length then acc2 else clientLoop count acc2 rest

/-- Common shape of `TikTokAPIClient.get_trending_videos`,
`get_videos_by_hashtag` and `get_user_videos`: `hasApi` is whether
`_initialize_api` produced a client; `fetch` is the outbound video stream
(`Except.error` = the remote call raised), each stream element the result of
that video's `info()` call.  Every failure path returns `[]`. -/
def clientFetchVideos (hasApi : Bool) (fetch : Except Unit (List (Except Unit Json)))
    (count : Nat) : List Video :=
  if hasApi = false then []
  else
    match fetch with
    | Except.error _ => []
    | Except.ok stream => clientLoop count [] stream

/-- `TikTokAPIClient.get_trending_videos(count)`. -/
def clientGetTrendingVideos (hasApi : Bool) (fetch : Except Unit (List (Except Unit Json)))
    (count : Nat) : List Video :=
  clientFetchVideos hasApi fetch count

/-- `TikTokAPIClient.get_videos_by_hashtag(hashtag, count)`: the hashtag only
selects the remote stream, which is part of the `fetch` input. -/
def clientGetVideosByHashtag (hasApi : Bool) (hashtag : String)
    (fetch : Except Unit (List (Except Unit Json))) (count : Nat) : List Video :=
  clientFetchVideos hasApi fetch count

/-- `TikTokAPIClient.get_user_videos(username, count)`: the username only
selects the remote stream, which is part of the `fetch` input. -/
def clientGetUserVideos (hasApi : Bool) (username : String)
    (fetch : Except Unit (List (Except Unit Json))) (count : Nat) : List Video :=
  clientFetchVideos hasApi fetch count

/-- Validity test applied to each URL candidate in
`TikTokScraper._get_video_url`: `url and isinstance(url, str) and
url.startswith('http')`. -/
def urlOk : Option Json → Option String
  | some (Json.str s) => if jsonTruthy (Json.str s) && pyStartsWith s "http" then some s else none
  | _ => none

/-- `TikTokScraper._get_video_url(video_data)`: try the four candidate
locations in order and return the first valid one.  Attribute access on a
non-dict `video_data` or `video_data['video']` raises (`Except.error`); the
caller's `try` handles it. -/
def getVideoUrl (raw : Json) : Except Unit (Option String) :=
  match raw with
  | Json.obj fields =>
    match (dictGet fields "video").getD (Json.obj []) with
    | Json.obj vfields =>
      Except.ok (([dictGet vfields "downloadAddr", dictGet vfields "playAddr",
                   dictGet fields "videoUrl", dictGet vfields "url"].filterMap urlOk).head?)
    | _ => Except.error ()
  | _ => Except.error ()

/-- The values actually present at the four candidate URL locations of
`TikTokScraper._get_video_url`, read totally (a location under a non-dict
parent simply holds nothing). -/
def candidateValues (raw : Json) : List Json :=
  match raw with
  | Json.obj fields =>
    let vfields := match (dictGet fields "video").getD (Json.obj []) with
      | Json.obj vf => vf
      | _ => []
    ([dictGet vfields "downloadAddr", dictGet vfields "playAddr",
      dictGet fields "videoUrl", dictGet vfields "url"]).reduceOption
  | _ => []

/-- Qualification test of the specification's rejection gate: a non-empty
string starting with `"http"`. -/
def isHttpUrl : Json → Bool
  | Json.str s => (s != "") && pyStartsWith s "http"
  | _ => false

/-- Hashtag extraction of `TikTokScraper._process_video_data`
(`[challenge['title'] for challenge in ...]`): `challenge['title']` raises
`KeyError` on a dict without the key and `TypeError` on a non-dict. -/
def extractTitles : List Json → Except Unit (List Json)
  | [] => Except.ok []
  | c :: rest =>
    match c with
    | Json.obj fields =>
      match dictGet fields "title" with
      | some t => do
        let ts ← extractTitles rest
        pure (t :: ts)
      | none => Except.error ()
    | _ => Except.error ()

/-- Record construction in `TikTokScraper._process_video_data` after the URL
gate passed; every raised field-extraction error is reported to the
surrounding `try`. -/
def buildScrapedVideo (raw : Json) (url : String) (r : Nat → Nat) : Except Unit Video := do
  let idv ← pyDictGetD raw "id"
    (Json.str ("video_" ++ toString (pyRandint 10000 99999 (r 0))))
  let vids ← pyDictGetD raw "video" (Json.obj [])
  let cover ← pyDictGetD vids "cover" (Json.str "")
  let auth ← pyDictGetD raw "author" (Json.obj [])
  let avatarThumb ← pyDictGetD auth "avatarThumb" (Json.str "")
  let thumb := pyOr cover avatarThumb
  let desc ← pyDictGetD raw "desc" (Json.str "TikTok Video")
  let uname ← pyDictGetD auth "uniqueId" (Json.str "tiktok_user")
  let nick ← pyDictGetD auth "nickname" (Json.str "TikTok User")
  let avatar ← pyDictGetD auth "avatarThumb" (Json.str "https://i.pravatar.cc/150")
  let stats ← pyDictGetD raw "stats" (Json.obj [])
  let likes ← pyDictGetD stats "diggCount" (Json.num (pyRandint 1000 100000 (r 1)))
  let comments ← pyDictGetD stats "commentCount" (Json.num (pyRandint 50 5000 (r 2)))
  let shares ← pyDictGetD stats "shareCount" (Json.num (pyRandint 20 2000 (r 3)))
  let views ← pyDictGetD stats "playCount" (Json.num (pyRandint 10000 1000000 (r 4)))
  let dur ← pyDictGetD vids "duration" (Json.num (pyRandint 15 60 (r 5)))
  let challenges ← pyDictGetD raw "challenges" (Json.arr [])
  let items ← pyIter challenges
  let titles ← extractTitles items
  let created ← pyDictGetD raw "createTime" (Json.str "2024-01-01T00:00:00Z")
  pure { id := idv, videoUrl := Json.str url, thumbnailUrl := thumb, description := desc,
         authorUsername := uname, authorNickname := nick, authorAvatar := avatar,
         statsLikes := likes, statsComments := comments, statsShares := shares,
         statsViews := views, duration := dur, hashtags := titles.take 3,
         isMock := false, createdAt := created }

/-- `TikTokScraper._process_video_data(video_data)`: reject (`None`) when no
valid video URL is found, and let the surrounding `try/except` turn every
raised error into `None` as well — the normalizer never raises. -/
def processVideoData (raw : Json) (r : Nat → Nat) : Option Video :=
  match getVideoUrl raw with
  | Except.error _ => none
  | Except.ok none => none
  | Except.ok (some url) =>
    match buildScrapedVideo raw url r with
    | Except.error _ => none
    | Except.ok v => some v

/-- Comment sub-document pushed by `MongoDB.add_comment`. -/
structure ReelComment where
  id : String
  userId : String
  text : String
  timestamp : Nat
deriving DecidableEq

/-- Stored reel document, holding exactly the fields `mongodb.py` reads or
writes.  `createdAt` is optional because `get_reels` guards on
`reel.get('created_at')`; times are modelled as `Nat` instants (`isoformat`
is abstracted to the instant itself).  The `stats` sub-object is carried
through unprocessed by the source and is not needed by any claim. -/
structure Doc where
  docId : String
  videoUrl : String
  thumbnailUrl : String
  description : String
  authorUsername : String
  duration : Nat
  hashtags : List String
  likes : List String
  comments : List ReelComment
  createdAt : Option Nat
  updatedAt : Nat
  isMock : Bool
deriving DecidableEq

/-- State of a `MongoDB` instance: the three handle fields set by `__init__`
(`self.client`, `self.db`, `self.reels`) and the server-side contents of the
reels collection the handles point at. -/
structure MongoDB where
  client : Option Unit
  db : Option Unit
  reels : Option Unit
  store : List Doc
deriving DecidableEq

/-- `MongoDB.__init__`: without a connection string the three handles are
`None`; otherwise the whole `try` block (client construction, ping,
`_create_indexes`) either succeeds — all three handles set — or raises, in
which case the `except` sets all three to `None`.  `connectOk` is the outcome
of that externally-determined block; `initialStore` is whatever the server
collection already holds. -/
def MongoDB.init (uri : Option String) (connectOk : Bool) (initialStore : List Doc) : MongoDB :=
  match uri with
  | none => ⟨none, none, none, initialStore⟩
  | some _ =>
    if connectOk then ⟨some (), some (), some (), initialStore⟩
    else ⟨none, none, none, initialStore⟩

/-- `MongoDB.is_connected`: `self.client is not None`. -/
def is_connected (m : MongoDB) : Bool :=
  m.client.isSome

/-- Validity of a BSON ObjectId literal (24 hexadecimal characters);
`ObjectId(reel_id)` raises on anything else. -/
def isValidObjectId (s : String) : Bool :=
  (s.length == 24) && s.toList.all (fun c =>
    (('0' ≤ c) && (c ≤ '9')) || (('a' ≤ c) && (c ≤ 'f')) || (('A' ≤ c) && (c ≤ 'F')))

/-- First stored document matching `{'_id': ObjectId(rid)}`. -/
def findFirst : List Doc → String → Option Doc
  | [], _ => none
  | d :: ds, rid => if d.docId == rid then some d else findFirst ds rid

/-- Server-side effect of `update_one({'_id': rid}, {'$addToSet': {'likes':
user_id}, '$set': {'updated_at': now}})`: returns `modified_count` and the
new collection contents.  The first matching document gets `user_id` appended
to `likes` if absent and `updated_at` set; `modified_count` is 1 exactly when
the document actually changed. -/
def likeUpdate (rid userId : String) (now : Nat) : List Doc → Nat × List Doc
  | [] => (0, [])
  | d :: ds =>
    if d.docId == rid then
      let changed := (!(d.likes.contains userId)) || (now != d.updatedAt)
      ((if changed then 1 else 0),
       { d with likes := if d.likes.contains userId then d.likes else d.likes ++ [userId],
                updatedAt := now } :: ds)
    else
      let r := likeUpdate rid userId now ds
      (r.1, d :: r.2)

/-- `MongoDB.like_reel(reel_id, user_id)`: mock success (`True`) when
disconnected; `False` when `ObjectId(reel_id)` raises (caught by the
`except`); otherwise `modified_count > 0`. -/
def like_reel (m : MongoDB) (reelId userId : String) (now : Nat) : Bool × MongoDB :=
  if is_connected m = false then (true, m)
  else if isValidObjectId reelId = false then (false, m)
  else
    let r := likeUpdate reelId userId now m.store
    (decide (0 < r.1), { m with store := r.2 })

/-- Server-side effect of `update_one({'_id': rid}, {'$push': {'comments':
comment}, '$set': {'updated_at': now}})`: `$push` always modifies the matched
document, so `modified_count` is 1 exactly when a document matched. -/
def commentUpdate (rid : String) (comment : ReelComment) (now : Nat) :
    List Doc → Nat × List Doc
  | [] => (0, [])
  | d :: ds =>
    if d.docId == rid then
      (1, { d with comments := d.comments ++ [comment], updatedAt := now } :: ds)
    else
      let r := commentUpdate rid comment now ds
      (r.1, d :: r.2)

/-- `MongoDB.add_comment(reel_id, user_id, comment_text)`: mock success
(`True`) when disconnected; `False` when `ObjectId(reel_id)` raises;
otherwise push the comment (with a freshly generated id `commentId` and the
current instant) and return `modified_count > 0`. -/
def add_comment (m : MongoDB) (reelId userId commentText : String) (now : Nat)
    (commentId : String) : Bool × MongoDB :=
  if is_connected m = false then (true, m)
  else if isValidObjectId reelId = false then (false, m)
  else
    let r := commentUpdate reelId ⟨commentId, userId, commentText, now⟩ now m.store
    (decide (0 < r.1), { m with store := r.2 })

/-- `MongoDB.save_reel(reel_data)`: disconnected mode returns a synthetic
`"mock_id_"` hex id (`mockHex` is the random `os.urandom(4).hex()` draw);
otherwise stamp `created_at`/`updated_at` with the current instant, insert,
and return the generated id `newId`. -/
def save_reel (m : MongoDB) (reelData : Doc) (now : Nat) (mockHex newId : String) :
    String × MongoDB :=
  if is_connected m = false then ("mock_id_" ++ mockHex, m)
  else
    let d := { reelData with docId := newId, createdAt := some now, updatedAt := now }
    (newId, { m with store := m.store ++ [d] })

/-- Mongo query built by `MongoDB.get_reels`: optional `{'hashtags': {'$in':
[h]}}` and `{'author.username': u}` clauses. -/
structure ReelQuery where
  hashtagIn : Option String
  usernameEq : Option String

/-- Mongo document matching for `ReelQuery`: `$in` with one element on an
array field is membership, the username clause is exact equality; clauses are
AND-combined. -/
def docMatches (q : ReelQuery) (d : Doc) : Bool :=
  (match q.hashtagIn with
   | none => true
   | some t => d.hashtags.contains t)
  && (match q.usernameEq with
      | none => true
      | some u => d.authorUsername == u)

/-- Query construction in `MongoDB.get_reels`: each filter participates only
when truthy (`if hashtag:` / `if username:`) and its query value is
lower-cased. -/
def buildReelQuery (hashtag username : Option String) : ReelQuery :=
  { hashtagIn := match hashtag with
      | some h => if h = "" then none else some (pyToLower h)
      | none => none,
    usernameEq := match username with
      | some u => if u = "" then none else some (pyToLower u)
      | none => none }

/-- Sort key for `.sort('created_at', -1)`: BSON orders null/missing below
date values, so in descending order documents without `created_at` come last. -/
def sortKey (d : Doc) : Nat :=
  match d.createdAt with
  | some t => t + 1
  | none => 0

/-- Descending insertion by `sortKey`, keeping earlier documents first among
equal keys. -/
def insertByCreatedDesc (d : Doc) : List Doc → List Doc
  | [] => [d]
  | x :: xs => if sortKey d < sortKey x then x :: insertByCreatedDesc d xs else d :: x :: xs

/-- Effect of `.sort('created_at', -1)` on the matched documents. -/
def sortByCreatedDesc (l : List Doc) : List Doc :=
  l.foldr insertByCreatedDesc []

/-- Effect of Mongo's `.limit(n)`: `n = 0` means no limit. -/
def mongoLimit (n : Nat) (l : List α) : List α :=
  if n = 0 then l else l.take n

/-- Response record built per document by `MongoDB.get_reels` (the processed
reel dict; the `author`/`stats` sub-objects are represented by their queried
projection). -/
structure ProcessedReel where
  id : String
  videoUrl : String
  thumbnailUrl : String
  description : String
  authorUsername : String
  duration : Nat
  hashtags : List String
  likes : List String
  comments : List ReelComment
  createdAt : Option Nat
  isMock : Bool
deriving DecidableEq

/-- The per-document projection loop of `MongoDB.get_reels`. -/
def processReel (d : Doc) : ProcessedReel :=
  { id := d.docId, videoUrl := d.videoUrl, thumbnailUrl := d.thumbnailUrl,
    description := d.description, authorUsername := d.authorUsername,
    duration := d.duration, hashtags := d.hashtags, likes := d.likes,
    comments := d.comments, createdAt := d.createdAt, isMock := d.isMock }

/-- Result of a read operation: Python returns differently-shaped lists from
the database branch and the mock branch. -/
inductive ReelsResult where
  | fromDb (reels : List ProcessedReel) : ReelsResult
  | fromMock (videos : List Video) : ReelsResult

/-- `MongoDB.get_reels(limit, skip, hashtag, username)`: disconnected mode
delegates to `TikTokService().get_trending_videos(limit)` (which needs the
outbound-call inputs); otherwise find, sort by creation time descending, skip,
limit, and project each document.  The connected branch raises nothing in the
embedding, so its `except` fallback is unreachable. -/
def get_reels (m : MongoDB) (limit skip : Nat) (hashtag username : Option String)
    (response : Except Unit (Nat × Json)) (rand : Nat → Nat → Nat) : ReelsResult :=
  if is_connected m = false then
    ReelsResult.fromMock (getTrendingVideos limit response rand)
  else
    let q := buildReelQuery hashtag username
    ReelsResult.fromDb
      ((mongoLimit limit ((sortByCreatedDesc (m.store.filter (docMatches q))).drop skip)).map
        processReel)

/-- Stats dict returned by `MongoDB.get_reel_stats` (the `mode` key is only
present in the disconnected branch). -/
structure ReelStats where
  total_reels : Nat
  total_likes : Nat
  avg_likes_per_reel : ℚ
  mode : Option String
deriving DecidableEq

/-- `MongoDB.get_reel_stats()`: disconnected mode returns the zero dict with
`mode: 'mock_data'`; otherwise count documents and aggregate like-list sizes
(`$size` of `$ifNull(likes, [])`, `$group`-summed — the aggregation yields no
row on an empty collection, and `next(..., {}).get('total', 0)` turns that
into 0), then divide guarding `total_reels > 0`. -/
def get_reel_stats (m : MongoDB) : ReelStats :=
  if is_connected m = false then ⟨0, 0, 0, some "mock_data"⟩
  else
    let total_reels := m.store.length
    let rows : List Nat :=
      if m.store.isEmpty then [] else [(m.store.map (fun d => d.likes.length)).sum]
    let total_likes_count := (rows.head?).getD 0
    ⟨total_reels, total_likes_count,
     if 0 < total_reels then (total_likes_count : ℚ) / (total_reels : ℚ) else 0, none⟩

/-- Scored result record built per document by `MongoDB.search_reels`. -/
structure ScoredReel where
  id : String
  videoUrl : String
  thumbnailUrl : String
  description : String
  authorUsername : String
  score : ℚ

/-- Result of `MongoDB.search_reels`: scored records from the database branch
or plain videos from the mock branch. -/
inductive SearchResult where
  | fromDb (reels : List ScoredReel) : SearchResult
  | fromMock (videos : List Video) : SearchResult

/-- Mock branch filter of `MongoDB.search_reels`
(`search_term.lower() in v.get('description', '').lower()`): `.lower()`
raises on a non-string description. -/
def mockSearchFilter (term : String) : List Video → Except Unit (List Video)
  | [] => Except.ok []
  | v :: rest => do
    let d ← pyLowerStr v.description
    let tail ← mockSearchFilter term rest
    pure (if strContains d (pyToLower term) then v :: tail else tail)

/-- `MongoDB.search_reels(search_term, limit)`: disconnected mode filters 50
trending mock videos by description substring; the connected branch runs the
server's `$text` query — the text index engine is the document store's own
(external) relevance machinery, passed in as `textSearch`, returning matched
documents with scores in descending score order. -/
def search_reels (m : MongoDB) (term : String) (limit : Nat)
    (textSearch : String → List Doc → List (Doc × ℚ))
    (response : Except Unit (Nat × Json)) (rand : Nat → Nat → Nat) :
    Except Unit SearchResult :=
  if is_connected m = false then do
    let flt ← mockSearchFilter term (getTrendingVideos 50 response rand)
    pure (SearchResult.fromMock (flt.take limit))
  else
    Except.ok (SearchResult.fromDb
      (((textSearch term m.store).take limit).map (fun p =>
        { id := p.1.docId, videoUrl := p.1.videoUrl, thumbnailUrl := p.1.thumbnailUrl,
          description := p.1.description, authorUsername := p.1.authorUsername,
          score := p.2 })))

/-- Module-level `db` initialisation in `app.py`: `db = MongoDB()` inside a
`try` whose `except` would set `db = None` — but `MongoDB.__init__` catches
every connection failure itself and returns normally, so `db` is always a
(possibly disconnected) instance and never `None`. -/
def appInitDb (uri : Option String) (connectOk : Bool) (initialStore : List Doc) :
    Option MongoDB :=
  some (MongoDB.init uri connectOk initialStore)

/-- Response of `GET /stats` in `app.py`. -/
structure StatsResponse where
  success : Bool
  stats : ReelStats
  source : String
deriving DecidableEq

/-- `GET /stats` handler: chooses branch and source tag via the truthiness of
the `db` object (`if db:`), not via `db.is_connected()`. -/
def statsEndpoint (db : Option MongoDB) : StatsResponse :=
  match db with
  | some m => ⟨true, get_reel_stats m, "database"⟩
  | none => ⟨true, ⟨0, 0, 0, some "mock_data"⟩, "mock_data"⟩

/-- Response of `GET /reels` in `app.py`. -/
structure ReelsResponse where
  success : Bool
  reels : ReelsResult
  source : String

/-- `GET /reels` handler: chooses branch and source tag via the truthiness of
the `db` object (`if db:`), not via `db.is_connected()`. -/
def reelsEndpoint (db : Option MongoDB) (limit skip : Nat)
    (hashtag username : Option String) (response : Except Unit (Nat × Json))
    (rand : Nat → Nat → Nat) : ReelsResponse :=
  match db with
  | some m => ⟨true, get_reels m limit skip hashtag username response rand, "database"⟩
  | none => ⟨true, ReelsResult.fromMock (getTrendingVideos limit response rand), "mock_data"⟩

/-- C1: evaluation at the failing input.  With `MONGODB_URI` unset (or any
connection failure) the constructed gateway is disconnected
(`is_connected() = False`), yet `app.py`'s `db` object is never `None`
(`MongoDB.__init__` absorbs every failure), so the `/stats` and `/reels`
handlers take the `if db:` branch and tag the response
`source = "database"` while serving mock data — the same `/stats` payload
even carries `mode = "mock_data"` inside a response tagged `"database"`.
The claim (matching the home endpoint's own `db and db.client` check) says
the tag must be `"mock_data"` whenever the gateway is disconnected. -/
theorem disconnected_reads_tagged_database :
    is_connected (MongoDB.init none false []) = false
    ∧ appInitDb none false [] = some (MongoDB.init none false [])
    ∧ (statsEndpoint (appInitDb none false [])).source = "database"
    ∧ (statsEndpoint (appInitDb none false [])).stats.mode = some "mock_data"
    ∧ (reelsEndpoint (appInitDb none false []) 5 0 none none (Except.error ())
        (fun _ _ => 0)).source = "database" :=
  ⟨rfl, rfl, rfl, rfl, rfl⟩

/-- Disconnected gateway instance (the `MONGODB_URI`-unset construction). -/
def mDisc : MongoDB := ⟨none, none, none, []⟩

/-- C3 counterexample: on a disconnected gateway both mutation operations
return `True` ("mock success"), not the claimed `False`. -/
theorem disconnected_mutations_not_false :
    (like_reel mDisc "abc123" "u1" 0).1 ≠ false
    ∧ (add_comment mDisc "abc123" "u1" "hi" 0 "c1").1 ≠ false := by
  decide

/-- C3 amended: on a disconnected gateway, `like_reel` and `add_comment`
return `True` (a mock-success acknowledgment) rather than raising. -/
theorem disconnected_mutations_return_true (m : MongoDB)
    (reelId userId commentText commentId : String) (now : Nat)
    (hc : is_connected m = false) :
    (like_reel m reelId userId now).1 = true
    ∧ (add_comment m reelId userId commentText now commentId).1 = true := by
  constructor
  · simp [like_reel, hc]
  · simp [add_comment, hc]

/-- C3 witness: the amended theorem applied to the disconnected instance. -/
theorem disconnected_mutations_return_true_witness :
    (like_reel mDisc "abc123" "u1" 0).1 = true
    ∧ (add_comment mDisc "abc123" "u1" "hi" 0 "c1").1 = true :=
  disconnected_mutations_return_true mDisc "abc123" "u1" "hi" "c1" 0 rfl

/-- C6: the stats operation returns `avg_likes_per_reel = total_likes /
total_reels` when `total_reels > 0` and `0` when `total_reels = 0`; the
zero-records case never divides. -/
theorem stats_avg_division_guard (m : MongoDB) :
    ((get_reel_stats m).total_reels = 0 → (get_reel_stats m).avg_likes_per_reel = 0)
    ∧ (0 < (get_reel_stats m).total_reels →
        (get_reel_stats m).avg_likes_per_reel
          = ((get_reel_stats m).total_likes : ℚ) / ((get_reel_stats m).total_reels : ℚ)) := by
  cases hc : is_connected m with
  | false => simp [get_reel_stats, hc]
  | true =>
    rcases hs : m.store with _ | ⟨d, ds⟩
    · simp [get_reel_stats, hc, hs]
    · simp [get_reel_stats, hc, hs]

/-- Connected gateway holding three stored documents with ten likes each. -/
def mStats : MongoDB :=
  ⟨some (), some (), some (),
   [⟨"65a0000000000000000000a1", "http://v1", "", "", "alice", 10, [],
     (List.range 10).map toString, [], some 1, 1, false⟩,
    ⟨"65a0000000000000000000a2", "http://v2", "", "", "bob", 10, [],
     (List.range 10).map toString, [], some 2, 2, false⟩,
    ⟨"65a0000000000000000000a3", "http://v3", "", "", "carol", 10, [],
     (List.range 10).map toString, [], some 3, 3, false⟩]⟩

/-- C6 witness: the theorem applied to a concrete three-document store
(30 total likes over 3 records). -/
theorem stats_avg_division_guard_witness :
    0 < (get_reel_stats mStats).total_reels
    ∧ (get_reel_stats mStats).avg_likes_per_reel
        = ((get_reel_stats mStats).total_likes : ℚ) / ((get_reel_stats mStats).total_reels : ℚ) :=
  ⟨by decide, (stats_avg_division_guard mStats).2 (by decide)⟩

lemma save_reel_fields (m : MongoDB) (d : Doc) (now : Nat) (mockHex newId : String) :
    (save_reel m d now mockHex newId).2.client = m.client
    ∧ (save_reel m d now mockHex newId).2.db = m.db
    ∧ (save_reel m d now mockHex newId).2.reels = m.reels := by
  unfold save_reel
  split
  · exact ⟨rfl, rfl, rfl⟩
  · exact ⟨rfl, rfl, rfl⟩

lemma like_reel_fields (m : MongoDB) (reelId userId : String) (now : Nat) :
    (like_reel m reelId userId now).2.client = m.client
    ∧ (like_reel m reelId userId now).2.db = m.db
    ∧ (like_reel m reelId userId now).2.reels = m.reels := by
  unfold like_reel
  split
  · exact ⟨rfl, rfl, rfl⟩
  · split
    · exact ⟨rfl, rfl, rfl⟩
    · exact ⟨rfl, rfl, rfl⟩

lemma add_comment_fields (m : MongoDB) (reelId userId commentText commentId : String)
    (now : Nat) :
    (add_comment m reelId userId commentText now commentId).2.client = m.client
    ∧ (add_comment m reelId userId commentText now commentId).2.db = m.db
    ∧ (add_comment m reelId userId commentText now commentId).2.reels = m.reels := by
  unfold add_comment
  split
  · exact ⟨rfl, rfl, rfl⟩
  · split
    · exact ⟨rfl, rfl, rfl⟩
    · exact ⟨rfl, rfl, rfl⟩

/-- C10: after construction the three handle fields are all `None` or all
set; `is_connected()` is exactly `client is not None`; and no operation
changes any handle field — the read operations (`get_reels`, `search_reels`,
`get_reel_stats`) are functions of the state that return no new state, and
each state-returning mutation preserves all three fields. -/
theorem connection_state_fixed (uri : Option String) (connectOk : Bool)
    (initialStore : List Doc) (m : MongoDB) (d : Doc)
    (reelId userId commentText commentId mockHex newId : String) (now : Nat) :
    (((MongoDB.init uri connectOk initialStore).client = none
      ∧ (MongoDB.init uri connectOk initialStore).db = none
      ∧ (MongoDB.init uri connectOk initialStore).reels = none)
     ∨ ((MongoDB.init uri connectOk initialStore).client ≠ none
      ∧ (MongoDB.init uri connectOk initialStore).db ≠ none
      ∧ (MongoDB.init uri connectOk initialStore).reels ≠ none))
    ∧ is_connected m = m.client.isSome
    ∧ (save_reel m d now mockHex newId).2.client = m.client
    ∧ (save_reel m d now mockHex newId).2.db = m.db
    ∧ (save_reel m d now mockHex newId).2.reels = m.reels
    ∧ (like_reel m reelId userId now).2.client = m.client
    ∧ (like_reel m reelId userId now).2.db = m.db
    ∧ (like_reel m reelId userId now).2.reels = m.reels
    ∧ (add_comment m reelId userId commentText now commentId).2.client = m.client
    ∧ (add_comment m reelId userId commentText now commentId).2.db = m.db
    ∧ (add_comment m reelId userId commentText now commentId).2.reels = m.reels := by
  refine ⟨?_, rfl, (save_reel_fields m d now mockHex newId).1,
    (save_reel_fields m d now mockHex newId).2.1, (save_reel_fields m d now mockHex newId).2.2,
    (like_reel_fields m reelId userId now).1, (like_reel_fields m reelId userId now).2.1,
    (like_reel_fields m reelId userId now).2.2,
    (add_comment_fields m reelId userId commentText commentId now).1,
    (add_comment_fields m reelId userId commentText commentId now).2.1,
    (add_comment_fields m reelId userId commentText commentId now).2.2⟩
  cases uri with
  | none => exact Or.inl ⟨rfl, rfl, rfl⟩
  | some s =>
    cases connectOk with
    | false => exact Or.inl ⟨rfl, rfl, rfl⟩
    | true => exact Or.inr ⟨by simp [MongoDB.init], by simp [MongoDB.init], by simp [MongoDB.init]⟩

lemma urlOk_eq_none (o : Option Json) (h : ∀ v, o = some v → isHttpUrl v = false) :
    urlOk o = none := by
  cases o with
  | none => rfl
  | some v =>
    cases v with
    | null => rfl
    | bool b => rfl
    | num n => rfl
    | arr l => rfl
    | obj f => rfl
    | str s =>
      have hf := h (Json.str s) rfl
      show (if jsonTruthy (Json.str s) && pyStartsWith s "http" then some s else none) = none
      rw [show (jsonTruthy (Json.str s) && pyStartsWith s "http") = isHttpUrl (Json.str s) from rfl,
        hf]
      rfl

/-- C5: whenever no candidate video-URL field of the raw payload holds a
non-empty string starting with `"http"`, `_process_video_data` rejects the
record (`None`); the embedding is total, so no input makes the normalizer
raise (the source's `try/except` returns `None` on every raised error). -/
theorem normalizer_rejects_without_http_url (raw : Json) (r : Nat → Nat)
    (h : (candidateValues raw).all (fun v => !isHttpUrl v) = true) :
    processVideoData raw r = none := by
  cases raw with
  | null => rfl
  | bool b => rfl
  | num n => rfl
  | str s => rfl
  | arr l => rfl
  | obj fields =>
    rcases hv : (dictGet fields "video").getD (Json.obj []) with _ | b | n | s | l | vfields
    · simp [processVideoData, getVideoUrl, hv]
    · simp [processVideoData, getVideoUrl, hv]
    · simp [processVideoData, getVideoUrl, hv]
    · simp [processVideoData, getVideoUrl, hv]
    · simp [processVideoData, getVideoUrl, hv]
    · have hall : ∀ v ∈ candidateValues (Json.obj fields), isHttpUrl v = false := by
        intro v hvmem
        have := List.all_eq_true.mp h v hvmem
        simpa using this
      have hcand : candidateValues (Json.obj fields)
          = ([dictGet vfields "downloadAddr", dictGet vfields "playAddr",
              dictGet fields "videoUrl", dictGet vfields "url"]).reduceOption := by
        simp [candidateValues, hv]
      have key : ∀ o ∈ [dictGet vfields "downloadAddr", dictGet vfields "playAddr",
          dictGet fields "videoUrl", dictGet vfields "url"], urlOk o = none := by
        intro o ho
        apply urlOk_eq_none
        intro v hveq
        apply hall
        rw [hcand, List.reduceOption_mem_iff, ← hveq]
        exact ho
      have hnil : ([dictGet vfields "downloadAddr", dictGet vfields "playAddr",
          dictGet fields "videoUrl", dictGet vfields "url"].filterMap urlOk) = [] :=
        List.filterMap_eq_nil_iff.mpr key
      have hg : getVideoUrl (Json.obj fields) = Except.ok none := by
        simp [getVideoUrl, hv, hnil]
      simp [processVideoData, hg]

/-- Raw payload whose URL candidates are a non-http string and a number. -/
def rawNoHttp : Json :=
  Json.obj [("videoUrl", Json.str "ftp://x"), ("video", Json.obj [("playAddr", Json.num 5)])]

/-- C5 witness: the theorem applied to a concrete rejected payload. -/
theorem normalizer_rejects_without_http_url_witness :
    (candidateValues rawNoHttp).all (fun v => !isHttpUrl v) = true
    ∧ processVideoData rawNoHttp (fun _ => 0) = none :=
  ⟨by decide, normalizer_rejects_without_http_url rawNoHttp (fun _ => 0) (by decide)⟩

/-- C9: every record returned by `get_user_videos` carries the requested
username and its capitalized form as author, whatever underlying source
(real API payload or mock fallback) produced the record. -/
theorem user_videos_author_overwritten (username : String) (count : Nat)
    (response : Except Unit (Nat × Json)) (rand : Nat → Nat → Nat) (v : Video)
    (hv : v ∈ getUserVideos username count response rand) :
    v.authorUsername = Json.str username
    ∧ v.authorNickname = Json.str (pyCapitalize username) := by
  simp only [getUserVideos, List.mem_map] at hv
  obtain ⟨w, _, rfl⟩ := hv
  exact ⟨rfl, rfl⟩

/-- C9 witness: the theorem applied to the record produced for `"alice"` with
the API call failing (mock fallback source). -/
theorem user_videos_author_overwritten_witness :
    ∃ v ∈ getUserVideos "alice" 1 (Except.error ()) (fun _ _ => 0),
      v.authorUsername = Json.str "alice" ∧ v.authorNickname = Json.str "Alice" := by
  have hl : (getUserVideos "alice" 1 (Except.error ()) (fun _ _ => 0)).length = 1 := rfl
  have hne : getUserVideos "alice" 1 (Except.error ()) (fun _ _ => 0) ≠ [] := by
    intro hemp
    rw [hemp] at hl
    simp at hl
  obtain ⟨v, hvmem⟩ := List.exists_mem_of_ne_nil _ hne
  have hav := user_videos_author_overwritten "alice" 1 (Except.error ()) (fun _ _ => 0) v hvmem
  refine ⟨v, hvmem, hav.1, ?_⟩
  rw [hav.2]
  exact congrArg Json.str (by decide)

/-- C8 amended: on a failed API initialisation or a raised remote call, the
three `TikTokAPIClient` fetchers return the empty sequence; but
`TikTokService._get_api_trending_videos` returns a `count`-length mock
fallback sequence (not an empty one) on a raised call, a non-200 status, or
an absent/empty `itemList` field.  No path raises to the caller. -/
theorem external_fetch_error_results (count : Nat)
    (fetch : Except Unit (List (Except Unit Json))) (hashtag username : String)
    (rand : Nat → Nat → Nat) (status : Nat) (body : Json)
    (hs : status ≠ 200) (hb : itemListTruthy body = false) :
    clientGetTrendingVideos false fetch count = []
    ∧ clientGetVideosByHashtag false hashtag fetch count = []
    ∧ clientGetUserVideos false username fetch count = []
    ∧ clientGetTrendingVideos true (Except.error ()) count = []
    ∧ clientGetVideosByHashtag true hashtag (Except.error ()) count = []
    ∧ clientGetUserVideos true username (Except.error ()) count = []
    ∧ (getApiTrendingVideos count (Except.error ()) rand).length = count
    ∧ (getApiTrendingVideos count (Except.ok (status, body)) rand).length = count
    ∧ (getApiTrendingVideos count (Except.ok (200, body)) rand).length = count := by
  refine ⟨rfl, rfl, rfl, rfl, rfl, rfl, ?_, ?_, ?_⟩
  · simp [getApiTrendingVideos, generateFallbackVideos]
  · simp [getApiTrendingVideos, hs, generateFallbackVideos]
  · cases hpb : pyDictGet body "itemList" with
    | error e => simp [getApiTrendingVideos, hpb, generateFallbackVideos]
    | ok o =>
      have hfalse : jsonTruthy (o.getD Json.null) = false := by
        have := hb
        rw [itemListTruthy, hpb] at this
        exact this
      simp [getApiTrendingVideos, hpb, hfalse, generateFallbackVideos]

/-- C8 counterexample: a raised remote call in
`TikTokService._get_api_trending_videos` yields three mock records, not the
claimed empty sequence. -/
theorem external_fetch_error_nonempty :
    getApiTrendingVideos 3 (Except.error ()) (fun _ _ => 0) ≠ [] := by
  have hl : (getApiTrendingVideos 3 (Except.error ()) (fun _ _ => 0)).length = 3 := rfl
  intro hemp
  rw [hemp] at hl
  simp at hl

/-- C8 witness: the amended theorem applied at `count = 2`, status 404, a
body without `itemList`. -/
theorem external_fetch_error_results_witness :
    clientGetTrendingVideos false (Except.ok []) 2 = []
    ∧ clientGetTrendingVideos true (Except.error ()) 2 = []
    ∧ (getApiTrendingVideos 2 (Except.error ()) (fun _ _ => 0)).length = 2
    ∧ (getApiTrendingVideos 2 (Except.ok (404, Json.obj [])) (fun _ _ => 0)).length = 2
    ∧ (getApiTrendingVideos 2 (Except.ok (200, Json.obj [])) (fun _ _ => 0)).length = 2 := by
  have h := external_fetch_error_results 2 (Except.ok []) "dance" "alice" (fun _ _ => 0)
    404 (Json.obj []) (by decide) (by decide)
  exact ⟨h.1, h.2.2.2.1, h.2.2.2.2.2.2.1, h.2.2.2.2.2.2.2.1, h.2.2.2.2.2.2.2.2⟩

lemma decide_pos_if (b : Bool) : decide (0 < (if b = true then 1 else 0 : Nat)) = b := by
  cases b <;> rfl

lemma mem_insert_self (l : List String) (u : String) :
    u ∈ (if u ∈ l then l else l ++ [u]) := by
  by_cases hl : u ∈ l
  · simpa [hl]
  · simp [hl]

lemma likeUpdate_found (rid userId : String) (now : Nat) (store : List Doc) :
    ∀ d : Doc, findFirst store rid = some d →
      (likeUpdate rid userId now store).1
          = (if ((!(d.likes.contains userId)) || (now != d.updatedAt)) = true then 1 else 0)
      ∧ findFirst (likeUpdate rid userId now store).2 rid
          = some { d with likes := if d.likes.contains userId = true then d.likes
                                   else d.likes ++ [userId],
                          updatedAt := now } := by
  induction store with
  | nil => intro d hd; simp [findFirst] at hd
  | cons x xs ih =>
    intro d hd
    cases hx : (x.docId == rid) with
    | true =>
      simp only [findFirst, hx] at hd
      simp only [if_pos, Option.some.injEq] at hd
      subst hd
      refine ⟨by simp [likeUpdate, hx], ?_⟩
      simp only [likeUpdate, hx]
      simp [findFirst, hx]
    | false =>
      simp only [findFirst, hx] at hd
      simp only [Bool.false_eq_true, if_false] at hd
      obtain ⟨h1, h2⟩ := ih d hd
      refine ⟨by simp [likeUpdate, hx, h1], ?_⟩
      simp only [likeUpdate, hx]
      simp only [Bool.false_eq_true, if_false]
      simpa [findFirst, hx] using h2

lemma like_reel_connected (m : MongoDB) (rid u : String) (t : Nat)
    (hc : is_connected m = true) (hv : isValidObjectId rid = true) :
    like_reel m rid u t
      = (decide (0 < (likeUpdate rid u t m.store).1),
         { m with store := (likeUpdate rid u t m.store).2 }) := by
  simp [like_reel, hc, hv]

/-- C2 amended: for a connected gateway, a well-formed record id resolving to
stored document `d`, and any user: two `like_reel` calls leave the like set
equal to what a single call produces, and the first call reports a
modification whenever the user was absent or the call instant differs from
the stored `updated_at`; but because the update also `$set`s `updated_at`,
the second call returns `true` exactly when its instant `t2` differs from the
first call's `t1` — it returns `false` only when the two instants coincide. -/
theorem like_twice_returns (m : MongoDB) (rid u : String) (t1 t2 : Nat) (d : Doc)
    (hc : is_connected m = true) (hv : isValidObjectId rid = true)
    (hf : findFirst m.store rid = some d) :
    (like_reel m rid u t1).1 = ((!(d.likes.contains u)) || (t1 != d.updatedAt))
    ∧ (like_reel (like_reel m rid u t1).2 rid u t2).1 = (t2 != t1)
    ∧ ∃ d1 d2,
        findFirst ((like_reel m rid u t1).2).store rid = some d1
        ∧ findFirst ((like_reel (like_reel m rid u t1).2 rid u t2).2).store rid = some d2
        ∧ d1.likes = (if d.likes.contains u = true then d.likes else d.likes ++ [u])
        ∧ d2.likes = d1.likes := by
  have e1 := like_reel_connected m rid u t1 hc hv
  have hc1 : is_connected (like_reel m rid u t1).2 = true := by
    rw [e1]; exact hc
  have e2 := like_reel_connected (like_reel m rid u t1).2 rid u t2 hc1 hv
  obtain ⟨ha1, ha2⟩ := likeUpdate_found rid u t1 m.store d hf
  have hm1s : (like_reel m rid u t1).2.store = (likeUpdate rid u t1 m.store).2 := by
    rw [e1]
  have hf1 : findFirst (like_reel m rid u t1).2.store rid
      = some { d with likes := if d.likes.contains u = true then d.likes else d.likes ++ [u],
                      updatedAt := t1 } := by
    rw [hm1s]; exact ha2
  obtain ⟨hb1, hb2⟩ := likeUpdate_found rid u t2 (like_reel m rid u t1).2.store _ hf1
  refine ⟨?_, ?_, ?_⟩
  · have hp1 : (like_reel m rid u t1).1 = decide (0 < (likeUpdate rid u t1 m.store).1) := by
      rw [e1]
    rw [hp1, ha1, decide_pos_if]
  · have hp2 : (like_reel (like_reel m rid u t1).2 rid u t2).1
        = decide (0 < (likeUpdate rid u t2 (like_reel m rid u t1).2.store).1) := by
      rw [e2]
    rw [hp2, hb1, decide_pos_if]
    simp [mem_insert_self]
  · have hm2s : (like_reel (like_reel m rid u t1).2 rid u t2).2.store
        = (likeUpdate rid u t2 (like_reel m rid u t1).2.store).2 := by
      rw [e2]
    refine ⟨_, _, hf1, by rw [hm2s]; exact hb2, rfl, ?_⟩
    simp [mem_insert_self]

/-- A well-formed 24-hex-character record id. -/
def oid24 : String := "0123456789abcdef01234567"

/-- Stored document with no likes yet, `updated_at = 0`. -/
def dLike : Doc := ⟨oid24, "http://v", "", "", "alice", 10, [], [], [], some 0, 0, false⟩

/-- Connected gateway holding exactly `dLike`. -/
def mLike : MongoDB := ⟨some (), some (), some (), [dLike]⟩

/-- C2 counterexample: liking the same record twice as the same user (at
instants 1 then 2) returns `true` both times — the second call does not
return the claimed `false`, because the update also `$set`s `updated_at`. -/
theorem like_second_call_true :
    (like_reel mLike oid24 "u1" 1).1 = true
    ∧ (like_reel (like_reel mLike oid24 "u1" 1).2 oid24 "u1" 2).1 ≠ false := by
  decide

/-- C2 witness: the amended theorem applied to the concrete store. -/
theorem like_twice_returns_witness :
    (like_reel mLike oid24 "u1" 1).1
        = ((!(dLike.likes.contains "u1")) || ((1 : Nat) != dLike.updatedAt))
    ∧ (like_reel (like_reel mLike oid24 "u1" 1).2 oid24 "u1" 2).1 = ((2 : Nat) != (1 : Nat))
    ∧ ∃ d1 d2,
        findFirst ((like_reel mLike oid24 "u1" 1).2).store oid24 = some d1
        ∧ findFirst ((like_reel (like_reel mLike oid24 "u1" 1).2 oid24 "u1" 2).2).store oid24
            = some d2
        ∧ d1.likes = (if dLike.likes.contains "u1" = true then dLike.likes
                      else dLike.likes ++ ["u1"])
        ∧ d2.likes = d1.likes :=
  like_twice_returns mLike oid24 "u1" 1 2 dLike rfl (by decide) (by decide)

/-- C7 amended: with both filters present (and truthy), the list operation
returns the stored documents whose `hashtags` array contains the lower-cased
query hashtag exactly and whose `author.username` equals the lower-cased
query username exactly (AND-combined), ordered by creation time descending,
with skip and then limit applied after ordering.  Only the query values are
lower-cased; stored values are matched as stored. -/
theorem list_filters_query_lowered (m : MongoDB) (limit skip : Nat) (h u : String)
    (hc : is_connected m = true) (hh : h ≠ "") (hu : u ≠ "")
    (response : Except Unit (Nat × Json)) (rand : Nat → Nat → Nat) :
    get_reels m limit skip (some h) (some u) response rand
      = ReelsResult.fromDb
          ((mongoLimit limit
            ((sortByCreatedDesc (m.store.filter (fun d =>
                d.hashtags.contains (pyToLower h)
                && (d.authorUsername == pyToLower u)))).drop skip)).map processReel) := by
  have hfun : docMatches (buildReelQuery (some h) (some u))
      = fun d => d.hashtags.contains (pyToLower h) && (d.authorUsername == pyToLower u) := by
    funext d
    simp [buildReelQuery, hh, hu, docMatches]
  simp [get_reels, hc, hfun]

/-- Stored document whose hashtag is mixed-case. -/
def dDance : Doc :=
  ⟨"65a0000000000000000000b1", "http://v", "", "", "alice", 10, ["Dance"], [], [], some 5, 5,
   false⟩

/-- Connected gateway holding exactly `dDance`. -/
def mDance : MongoDB := ⟨some (), some (), some (), [dDance]⟩

/-- C7 counterexample: the stored hashtag `"Dance"` matches the query
`"Dance"` under case-insensitive comparison (both sides lower-cased), yet
`get_reels` returns nothing, because only the query value is lower-cased and
`"dance"` is compared exactly against the stored `"Dance"`. -/
theorem hashtag_stored_value_not_lowered :
    ((dDance.hashtags.map pyToLower).contains (pyToLower "Dance")) = true
    ∧ get_reels mDance 20 0 (some "Dance") none (Except.error ()) (fun _ _ => 0)
        = ReelsResult.fromDb [] :=
  ⟨by decide, rfl⟩

/-- C7 witness: the amended theorem applied to the concrete one-document
store with both filters present. -/
theorem list_filters_query_lowered_witness :
    get_reels mDance 20 0 (some "Tag") (some "Alice") (Except.error ()) (fun _ _ => 0)
      = ReelsResult.fromDb
          ((mongoLimit 20
            ((sortByCreatedDesc (mDance.store.filter (fun d =>
                d.hashtags.contains (pyToLower "Tag")
                && (d.authorUsername == pyToLower "Alice")))).drop 0)).map processReel) :=
  list_filters_query_lowered mDance 20 0 "Tag" "Alice" rfl (by decide) (by decide)
    (Except.error ()) (fun _ _ => 0)
